import Mathlib

/-!
Shallow embedding of `src/dot_proxy.py` (a DNS-over-TLS UDP proxy) and
verification of its specification claims.

Modelling conventions:
* Byte strings are `List Nat` (`Bytes`).
* Python exceptions are modelled by the `PyErr` type and `Except` results;
  a Python method that mutates `self` is modelled by returning the updated
  record together with a trace of I/O events (`Event`).
* Randomness (`secrets.choice(DOT_SERVERS)`) is modelled by an oracle
  parameter `pick`; environment-dependent I/O outcomes (`writer.drain`,
  `reader.read`) are modelled by oracle parameters as well.
-/

namespace DotProxy

/-- Bytes as lists of naturals (each conceptually < 256). -/
abbrev Bytes := List Nat

/-- The static fallback resolver list `DOT_SERVERS` from the source. -/
def DOT_SERVERS : List String :=
  ["9.9.9.9", "2620:fe:0:0:0:0:0:fe", "9.9.9.10", "2620:fe:0:0:0:0:0:10",
   "1.1.1.1", "1.0.0.1", "2606:4700:4700:0:0:0:0:1111", "2606:4700:4700:0:0:0:0:1001",
   "8.8.8.8", "8.8.4.4", "2001:4860:4860:0:0:0:0:8888", "2001:4860:4860:0:0:0:0:8844"]

/-- The constant `DEFAULT_DOT_PORT = 853` from the source. -/
def DEFAULT_DOT_PORT : Nat := 853

/-- Model of a Python `ssl.SSLContext`, restricted to the two verification
settings relevant here: `check_hostname` and whether certificate (trust-chain)
verification is required (`verify_mode == CERT_REQUIRED`). -/
structure SSLContext where
  check_hostname : Bool
  verify_cert : Bool
deriving DecidableEq, Repr

/-- Model of `ssl.create_default_context()`: hostname checking on and
certificate verification required. -/
def create_default_context : SSLContext := ⟨true, true⟩

/-- The arguments `DOTClient.connect` passes to `asyncio.open_connection`:
host, port, the `ssl=` context, and the extra `verify_ssl=` keyword argument
(`none` models not passing it at all). -/
structure OpenConnectionCall where
  host : String
  port : Nat
  ssl : SSLContext
  verify_ssl : Option Bool
deriving DecidableEq, Repr

/-- Model of an `asyncio.StreamWriter`: the bytes written so far and the
`is_closing()` flag. -/
structure Writer where
  buffer : Bytes := []
  closing : Bool := false
deriving DecidableEq, Repr

/-- Model of the `DOTClient` dataclass.  The `reader` field carries no state
we track (reads are modelled by an oracle), so it is omitted; `writer = none`
models the initial `writer: StreamWriter | None = None`. -/
structure DOTClient where
  host : Option String := none
  port : Option Nat := none
  writer : Option Writer := none
deriving DecidableEq, Repr

/-- Python exceptions raised by the modelled code paths.  `typeError` is the
`TypeError` CPython raises for an unexpected keyword argument. -/
inductive PyErr
  | connectError
  | ioError
  | overflowError
  | typeError
deriving DecidableEq, Repr

/-- Observable I/O events of a client, in order of occurrence.  `closeEv`
models `writer.close()`; note no modelled code path ever emits it. -/
inductive Event
  | connectEv (call : OpenConnectionCall)
  | writeEv (bs : Bytes)
  | drainEv
  | closeEv
deriving DecidableEq, Repr

/-- The `asyncio.open_connection` call made by `DOTClient.connect`
(source lines 57-62): target host is `self.host or secrets.choice(DOT_SERVERS)`
(the random choice is the oracle `pick`), port is `self.port or
DEFAULT_DOT_PORT`, `ssl=` the freshly built default context, and the literal
keyword argument `verify_ssl=False`. -/
def DOTClient.connectCall (cl : DOTClient) (pick : String) : OpenConnectionCall :=
  { host := cl.host.getD pick
    port := cl.port.getD DEFAULT_DOT_PORT
    ssl := create_default_context
    verify_ssl := some false }

/-- Model of `asyncio.open_connection`: extra keyword arguments are
forwarded to `loop.create_connection`, whose signature accepts `ssl=` but has
no `verify_ssl` parameter, so any call passing `verify_ssl` raises
`TypeError` before any network I/O.  A call without it yields a fresh open
stream, or a TLS/TCP/DNS connection failure decided by the environment
oracle `net` (the spec's `ConnectError` case). -/
def open_connection (call : OpenConnectionCall) (net : Except PyErr Unit) :
    Except PyErr Writer :=
  match call.verify_ssl with
  | some _ => .error .typeError
  | none =>
    match net with
    | .error e => .error e
    | .ok _ => .ok { buffer := [], closing := false }

/-- Result of a `connect` call: the client as mutated, the open-connection
call that was made, and the outcome. -/
structure ConnectResult where
  client : DOTClient
  call : OpenConnectionCall
  outcome : Except PyErr Unit
deriving Repr

/-- Model of `DOTClient.connect` (source lines 49-62): builds the default
context, resolves host and port, and awaits `open_connection`.  On success
the assignment replaces the stored stream handle; on an exception the
assignment is never reached and the client is unchanged.  Because the source
always passes `verify_ssl=False`, the call in fact always raises
`TypeError`. -/
def DOTClient.connect (cl : DOTClient) (pick : String) (net : Except PyErr Unit) :
    ConnectResult :=
  let call := cl.connectCall pick
  match open_connection call net with
  | .error e => { client := cl, call := call, outcome := .error e }
  | .ok w => { client := { cl with writer := some w }, call := call, outcome := .ok () }

/-- Model of Python `int.to_bytes(n, 2)` (big-endian by default since
Python 3.11): two bytes for `n < 2^16`, otherwise `OverflowError`. -/
def intToBytes2 (n : Nat) : Except PyErr Bytes :=
  if n < 65536 then .ok [n / 256, n % 256] else .error .overflowError

/-- Result of a `send_message` call: the client as mutated, the I/O events
performed, and the outcome (`ok` or the exception raised). -/
structure SendResult where
  client : DOTClient
  events : List Event
  outcome : Except PyErr Unit
deriving Repr

/-- The reconnect test of `send_message`:
`if not self.writer or self.writer.is_closing()`. -/
def DOTClient.needsConnect (cl : DOTClient) : Bool :=
  match cl.writer with
  | none => true
  | some w => w.closing

/-- Model of the first two lines of `send_message` (source lines 67-68,
the spec's `ensureConnected`): `if not self.writer or self.writer.is_closing():
await self.connect()`.  An exception raised by `connect` propagates and
aborts the send. -/
def DOTClient.ensureConnected (cl : DOTClient) (pick : String)
    (net : Except PyErr Unit) : SendResult :=
  if cl.needsConnect then
    let cr := cl.connect pick net
    { client := cr.client, events := [Event.connectEv cr.call], outcome := cr.outcome }
  else
    { client := cl, events := [], outcome := .ok () }

/-- Model of `DOTClient.send_message` (source lines 66-72): reconnect when the
writer is absent or closing (a raising `connect` aborts the send before any
write), then `writer.write(int.to_bytes(len(message), 2) + message)`
followed by `writer.drain()`.  `pick` is the random-host oracle and `net`
the network oracle of the connect, `drainOutcome` the environment's outcome
of the `drain()` call.  `int.to_bytes` raises `OverflowError` before any
write when the message is longer than 65535 bytes. -/
def DOTClient.send_message (cl : DOTClient) (msg : Bytes) (pick : String)
    (net : Except PyErr Unit) (drainOutcome : Except PyErr Unit) : SendResult :=
  let ec := cl.ensureConnected pick net
  match ec.outcome with
  | .error e => { client := ec.client, events := ec.events, outcome := .error e }
  | .ok _ =>
    match ec.client.writer with
    | none => { client := ec.client, events := ec.events, outcome := .error .ioError }
    | some w =>
      match intToBytes2 msg.length with
      | .error e => { client := ec.client, events := ec.events, outcome := .error e }
      | .ok lenBytes =>
        { client := { ec.client with writer := some { w with buffer := w.buffer ++ (lenBytes ++ msg) } },
          events := ec.events ++ [Event.writeEv (lenBytes ++ msg), Event.drainEv],
          outcome := drainOutcome }

/-- Outcome of one `self.reader.read(4096)` call, supplied by the
environment.  Per `asyncio.StreamReader.read` semantics, a read on a stream
whose peer has closed the connection returns the empty byte string (EOF) -
it does not raise; a read error raises. -/
inductive ReadResult
  | data (bs : Bytes)
  | fail (e : PyErr)
deriving DecidableEq, Repr

/-- Model of `DOTClient.receive_message` (source lines 74-76): one read of at
most 4096 bytes, returning `(await self.reader.read(4096))[2:]`; an exception
raised by the read propagates unchanged. -/
def receive_message (r : ReadResult) : Except PyErr Bytes :=
  match r with
  | .fail e => .error e
  | .data bs => .ok (bs.drop 2)

/-- Unfolding of `send_message` on a connected client (writer present and not
closing): no reconnect, the length-prefixed message is appended to the
writer's buffer, one write event and one drain event occur, and the outcome
is the drain's outcome. -/
theorem send_message_eq_of_connected (cl : DOTClient) (w : Writer) (msg : Bytes)
    (pick : String) (net : Except PyErr Unit) (dr : Except PyErr Unit)
    (hw : cl.writer = some w) (hop : w.closing = false) (hlen : msg.length < 65536) :
    cl.send_message msg pick net dr =
      { client := { cl with writer := some { w with buffer := w.buffer ++ ([msg.length / 256, msg.length % 256] ++ msg) } },
        events := [Event.writeEv ([msg.length / 256, msg.length % 256] ++ msg), Event.drainEv],
        outcome := dr } := by
  simp [DOTClient.send_message, DOTClient.ensureConnected, DOTClient.needsConnect, hw, hop,
    intToBytes2, hlen]

/-- Unfolding of `send_message` when a reconnect is needed (writer absent or
closing): the connect call is made, `open_connection` rejects the
`verify_ssl` keyword with `TypeError` before any network I/O, the exception
propagates out of `send_message`, and nothing is ever written - for every
message, host choice and network condition. -/
theorem send_message_eq_of_reconnect (cl : DOTClient) (msg : Bytes)
    (pick : String) (net : Except PyErr Unit) (dr : Except PyErr Unit)
    (hn : cl.needsConnect = true) :
    cl.send_message msg pick net dr =
      { client := cl,
        events := [Event.connectEv (cl.connectCall pick)],
        outcome := .error .typeError } := by
  simp [DOTClient.send_message, DOTClient.ensureConnected, hn, DOTClient.connect,
    DOTClient.connectCall, open_connection]

/-- Unfolding of `send_message` on a connected client when the message is too
long for the 2-byte length prefix: `int.to_bytes` raises `OverflowError`
before anything is written, the client is unchanged and no I/O event
occurs. -/
theorem send_message_eq_of_overflow (cl : DOTClient) (w : Writer) (msg : Bytes)
    (pick : String) (net : Except PyErr Unit) (dr : Except PyErr Unit)
    (hw : cl.writer = some w) (hop : w.closing = false) (hlen : 65535 < msg.length) :
    cl.send_message msg pick net dr = ⟨cl, [], .error .overflowError⟩ := by
  have h : ¬ msg.length < 65536 := by omega
  simp [DOTClient.send_message, DOTClient.ensureConnected, DOTClient.needsConnect, hw, hop,
    intToBytes2, h]

/-- Specification-side predicate (from the spec's words, for comparison with
the code): the connection call uses default TLS verification, i.e. the ssl
context is the default one (hostname checking + trust chain required) and no
`verify_ssl=` override is passed. -/
def usesDefaultTLSVerif (call : OpenConnectionCall) : Prop :=
  call.ssl = create_default_context ∧ call.verify_ssl = none

/-- Claim C3 counterexample: the connect call actually made by
`DOTClient.connect` does not use default TLS verification as the spec states
it: it explicitly passes `verify_ssl=False` (source line 61). -/
theorem connect_not_default_verification :
    ¬ usesDefaultTLSVerif ((DOTClient.mk none none none).connect "9.9.9.9" (.ok ())).call := by
  intro h
  simpa [DOTClient.connect, DOTClient.connectCall, usesDefaultTLSVerif, open_connection] using h.2

/-- Claim C3 (amended): every connect call builds its ssl context with
`ssl.create_default_context()` (hostname checking and trust-chain
verification enabled in the context), but additionally passes the literal
`verify_ssl=False` keyword argument to the connection-opening call,
contradicting verification-by-default at the call site. -/
theorem connect_context_default_but_verify_ssl_false (cl : DOTClient) (pick : String)
    (net : Except PyErr Unit) :
    (cl.connect pick net).call.ssl = create_default_context ∧
      (cl.connect pick net).call.verify_ssl = some false :=
  ⟨rfl, rfl⟩

/-- Claim C4 (amended): for every message of at most 65535 bytes sent on a
client whose stream is present and not closing, `send_message` writes
exactly the 2-byte unsigned big-endian encoding of the message length
followed by the message itself, and then flushes.  (When the stream is
absent or closing, the preliminary connect itself deterministically raises
`TypeError` - the invalid `verify_ssl` keyword - before any write, see
claim C9; and messages over 65535 bytes raise `OverflowError` before any
write, see claim C10.) -/
theorem send_message_frames_and_flushes (cl : DOTClient) (w : Writer) (msg : Bytes)
    (pick : String) (net : Except PyErr Unit)
    (hw : cl.writer = some w) (hop : w.closing = false) (hlen : msg.length ≤ 65535) :
    cl.send_message msg pick net (.ok ()) =
      { client := { cl with writer := some { w with buffer := w.buffer ++ ([msg.length / 256, msg.length % 256] ++ msg) } },
        events := [Event.writeEv ([msg.length / 256, msg.length % 256] ++ msg), Event.drainEv],
        outcome := .ok () } :=
  send_message_eq_of_connected cl w msg pick net (.ok ()) hw hop (by omega)

/-- Witness for claim C4's theorem at a concrete connected client and a
3-byte message. -/
theorem send_message_frames_and_flushes_witness :
    (DOTClient.mk none none (some { buffer := [], closing := false })).send_message
        [0, 1, 2] "9.9.9.9" (.ok ()) (.ok ()) =
      { client := DOTClient.mk none none (some { buffer := [] ++ ([([0, 1, 2] : Bytes).length / 256, ([0, 1, 2] : Bytes).length % 256] ++ [0, 1, 2]), closing := false }),
        events := [Event.writeEv ([([0, 1, 2] : Bytes).length / 256, ([0, 1, 2] : Bytes).length % 256] ++ [0, 1, 2]), Event.drainEv],
        outcome := .ok () } :=
  send_message_frames_and_flushes _ { buffer := [], closing := false } _ _ _ rfl rfl (by decide)

/-- Claim C4 counterexample: `send_message` does not write the framed message
for every byte string; on an already-connected client a 65536-byte message
raises `OverflowError` and nothing at all is written or flushed. -/
theorem send_message_not_total_counterexample :
    ((DOTClient.mk none none (some { buffer := [], closing := false })).send_message
        (List.replicate 65536 0) "9.9.9.9" (.ok ()) (.ok ())).events = [] ∧
    ((DOTClient.mk none none (some { buffer := [], closing := false })).send_message
        (List.replicate 65536 0) "9.9.9.9" (.ok ()) (.ok ())).outcome = .error .overflowError := by
  rw [send_message_eq_of_overflow _ { buffer := [], closing := false } _ _ _ _ rfl rfl
    (by rw [List.length_replicate]; omega)]
  exact ⟨rfl, rfl⟩

/-- Claim C5: `receive_message` performs one bounded read (modelled by the
single `ReadResult` oracle, which the environment bounds by 4096 bytes) and
returns the bytes read with the first 2 bytes stripped; hence on a client
with an established stream - the claim's scenario "against an upstream that
replies" presupposes the TLS stream exists; it is never reached through the
source's own `connect`, see claim C9 - a send of `q` followed by a receive
against an upstream replying `r` (at most 4096 bytes) yields exactly `r`
without its 2-byte length prefix. -/
theorem send_receive_round_trip (cl : DOTClient) (w : Writer) (q r : Bytes) (pick : String)
    (net : Except PyErr Unit)
    (hw : cl.writer = some w) (hop : w.closing = false)
    (hq : q.length ≤ 65535) (_hr : r.length ≤ 4096) :
    (cl.send_message q pick net (.ok ())).outcome = .ok () ∧
    receive_message (ReadResult.data r) = .ok (r.drop 2) := by
  rw [send_message_eq_of_connected cl w q pick net (.ok ()) hw hop (by omega)]
  exact ⟨rfl, rfl⟩

/-- Witness for claim C5's theorem at a concrete established-stream client,
query and reply. -/
theorem send_receive_round_trip_witness :
    ((DOTClient.mk none none (some { buffer := [], closing := false })).send_message
        [1, 2] "9.9.9.9" (.ok ()) (.ok ())).outcome = .ok () ∧
    receive_message (ReadResult.data [0, 3, 9, 9, 9]) = .ok (([0, 3, 9, 9, 9] : Bytes).drop 2) :=
  send_receive_round_trip _ { buffer := [], closing := false } _ _ _ _ rfl rfl
    (by decide) (by decide)

/-- Claim C6 counterexample: when the peer has closed the connection the
read returns the empty byte string (EOF semantics of
`asyncio.StreamReader.read`), and `receive_message` then returns the empty
payload as a normal result instead of failing with `IOError`. -/
theorem receive_message_peer_close_counterexample :
    receive_message (ReadResult.data []) = .ok [] := rfl

/-- Claim C6 (amended): `receive_message` propagates the exception when the
stream read errors, but on peer close the read reports end-of-file with an
empty byte string and `receive_message` returns a normal empty payload, not
an `IOError`. -/
theorem receive_message_error_propagation :
    (∀ e : PyErr, receive_message (ReadResult.fail e) = .error e) ∧
    receive_message (ReadResult.data []) = .ok [] :=
  ⟨fun _ => rfl, rfl⟩

/-- Claim C9 (code bug): after the peer has closed the stream (writer
present but `is_closing()`), the next `send_message` does make exactly one
call to `connect` - but `connect` deterministically raises `TypeError`,
because `verify_ssl` is not an accepted `asyncio.open_connection` keyword
argument, so the framed query is never written: the client is unchanged,
the only event is the single connect attempt, and the exception propagates.
The reconnect-then-send behaviour the spec describes is unreachable in the
source as written. -/
theorem send_message_after_peer_close_raises :
    (DOTClient.mk (some "1.1.1.1") (some 853) (some { buffer := [], closing := true })).send_message
        [7] "9.9.9.9" (.ok ()) (.ok ()) =
      { client := DOTClient.mk (some "1.1.1.1") (some 853) (some { buffer := [], closing := true }),
        events := [Event.connectEv ((DOTClient.mk (some "1.1.1.1") (some 853) (some { buffer := [], closing := true })).connectCall "9.9.9.9")],
        outcome := .error .typeError } := rfl

/-- Claim C10: on an already-connected client, a message longer than 65535
bytes makes `send_message` fail with `OverflowError` from
`int.to_bytes(len(message), 2)` before any bytes are written: the client is
unchanged and no write, drain or connect event occurs. -/
theorem send_message_oversized_fails_before_write (cl : DOTClient) (w : Writer) (msg : Bytes)
    (pick : String) (net : Except PyErr Unit) (dr : Except PyErr Unit)
    (hw : cl.writer = some w) (hop : w.closing = false) (hlen : 65535 < msg.length) :
    cl.send_message msg pick net dr =
      { client := cl, events := [], outcome := .error .overflowError } :=
  send_message_eq_of_overflow cl w msg pick net dr hw hop hlen

/-- Witness for claim C10's theorem at a concrete 65536-byte message. -/
theorem send_message_oversized_fails_before_write_witness :
    (DOTClient.mk (some "8.8.8.8") none (some { buffer := [5], closing := false })).send_message
        (List.replicate 65536 1) "9.9.9.9" (.ok ()) (.error .ioError) =
      { client := DOTClient.mk (some "8.8.8.8") none (some { buffer := [5], closing := false }),
        events := [], outcome := .error .overflowError } :=
  send_message_oversized_fails_before_write _ { buffer := [5], closing := false } _ _ _ _ rfl rfl
    (by rw [List.length_replicate]; omega)

/-- Model of `deque.append` with a `maxlen` bound: when the deque is full,
appending on the right silently discards the leftmost element (Python
`collections.deque(maxlen=...)` semantics, source line 86-88). -/
def dequeAppend (maxlen : Nat) (pool : List Nat) (c : Nat) : List Nat :=
  if maxlen ≤ pool.length then (pool ++ [c]).tail else pool ++ [c]

/-- State of a `DOTClientPool`.  Clients are identified by the index they
were created with; `pool` is the internal deque (`self._pool`, right end =
`pop`/`append` end) and `out` is ghost state recording which clients are
currently checked out. -/
structure PoolState where
  maxClients : Nat
  pool : List Nat
  out : List Nat
deriving DecidableEq, Repr

/-- Model of `DOTClientPool.__init__(max_clients)`: a deque of `max_clients`
freshly created clients, none checked out. -/
def DOTClientPool.init (n : Nat) : PoolState :=
  { maxClients := n, pool := List.range n, out := [] }

/-- One pool operation: an acquire (`_get_client_from_pool`) or a release
(`release_client c`). -/
inductive PoolOp
  | acquire
  | release (c : Nat)
deriving DecidableEq, Repr

/-- One step of the pool.  `acquire` pops from the right end of the deque
(`self._pool.pop()`); on an empty deque the code sleeps and retries, so the
state is unchanged while waiting.  `release c` appends on the right
(`self._pool.append(client)`). -/
def poolStep (st : PoolState) : PoolOp → PoolState
  | .acquire =>
    match st.pool.getLast? with
    | none => st
    | some c => { st with pool := st.pool.dropLast, out := c :: st.out }
  | .release c =>
    { st with pool := dequeAppend st.maxClients st.pool c, out := st.out.erase c }

/-- Run a sequence of pool operations. -/
def poolRun (st : PoolState) : List PoolOp → PoolState
  | [] => st
  | op :: ops => poolRun (poolStep st op) ops

/-- Well-formedness of one operation against the current state: a release
only returns a client that is currently checked out. -/
def wfOp (st : PoolState) : PoolOp → Bool
  | .acquire => true
  | .release c => st.out.contains c

/-- Well-formed operation sequences: every release returns a client that is
checked out at that point.  This is exactly what the scoped `get_client`
context manager guarantees for every caller in the source. -/
def wfOps (st : PoolState) : List PoolOp → Bool
  | [] => true
  | op :: ops => wfOp st op && wfOps (poolStep st op) ops

/-- The pool invariant: the deque together with the checked-out clients is a
permutation of the clients created at construction. -/
def PoolInv (st : PoolState) : Prop :=
  (st.pool ++ st.out).Perm (List.range st.maxClients)

theorem poolStep_maxClients (st : PoolState) (op : PoolOp) :
    (poolStep st op).maxClients = st.maxClients := by
  cases op with
  | acquire =>
    cases h : st.pool.getLast? <;> simp [poolStep, h]
  | release c => rfl

theorem poolStep_inv (st : PoolState) (op : PoolOp) (hinv : PoolInv st)
    (hop : match op with | .acquire => True | .release c => c ∈ st.out) :
    PoolInv (poolStep st op) := by
  cases op with
  | acquire =>
    cases h : st.pool.getLast? with
    | none => simpa [poolStep, h] using hinv
    | some c =>
      have hne : st.pool ≠ [] := by
        intro hnil
        rw [hnil] at h
        exact Option.noConfusion h
      have hsplit : st.pool.dropLast ++ [st.pool.getLast hne] = st.pool :=
        List.dropLast_append_getLast hne
      have hc : st.pool.getLast hne = c := by
        have h2 := List.getLast?_eq_getLast st.pool hne
        rw [h2] at h
        injection h
      rw [hc] at hsplit
      unfold PoolInv
      simp only [poolStep, h]
      have heq : st.pool.dropLast ++ c :: st.out = st.pool ++ st.out := by
        conv_rhs => rw [← hsplit]
        simp
      rw [heq]
      exact hinv
  | release c =>
    have hc : c ∈ st.out := hop
    have hlen : (st.pool ++ st.out).length = st.maxClients := hinv.length_eq.trans (by simp)
    have houtpos : 0 < st.out.length := List.length_pos.mpr (List.ne_nil_of_mem hc)
    have hpool : st.pool.length < st.maxClients := by
      simp only [List.length_append] at hlen
      omega
    have hdeq : dequeAppend st.maxClients st.pool c = st.pool ++ [c] := by
      unfold dequeAppend
      rw [if_neg (by omega)]
    unfold PoolInv
    simp only [poolStep, hdeq]
    have hperm1 : (st.pool ++ [c]) ++ st.out.erase c = st.pool ++ (c :: st.out.erase c) := by
      simp
    rw [hperm1]
    have hperm2 : (c :: st.out.erase c).Perm st.out := (List.perm_cons_erase hc).symm
    exact ((hperm2.append_left st.pool).trans hinv)

theorem poolRun_inv (ops : List PoolOp) (st : PoolState) (hinv : PoolInv st)
    (hwf : wfOps st ops = true) : PoolInv (poolRun st ops) := by
  induction ops generalizing st with
  | nil => exact hinv
  | cons op ops ih =>
    simp only [wfOps, Bool.and_eq_true] at hwf
    refine ih (poolStep st op) (poolStep_inv st op hinv ?_) hwf.2
    cases op with
    | acquire => trivial
    | release c =>
      have := hwf.1
      simpa [wfOp, List.contains, List.elem_eq_mem] using this

/-- Claim C1: for every well-formed sequence of acquire and release
operations on a pool of capacity `n`, the number of clients checked out plus
the number in the pool equals `n`, and the clients present (pooled or
checked out) are exactly the `n` created at construction - none is ever
created or lost. -/
theorem pool_conservation (n : Nat) (ops : List PoolOp)
    (hwf : wfOps (DOTClientPool.init n) ops = true) :
    (poolRun (DOTClientPool.init n) ops).pool.length
        + (poolRun (DOTClientPool.init n) ops).out.length = n ∧
    ((poolRun (DOTClientPool.init n) ops).pool
        ++ (poolRun (DOTClientPool.init n) ops).out).Perm (List.range n) := by
  have hms : (poolRun (DOTClientPool.init n) ops).maxClients = n := by
    have : ∀ (l : List PoolOp) (st : PoolState), (poolRun st l).maxClients = st.maxClients := by
      intro l
      induction l with
      | nil => intro st; rfl
      | cons op ops ih => intro st; rw [poolRun, ih, poolStep_maxClients]
    exact this ops (DOTClientPool.init n)
  have hinv0 : PoolInv (DOTClientPool.init n) := by
    unfold PoolInv DOTClientPool.init
    simp
  have h := poolRun_inv ops (DOTClientPool.init n) hinv0 hwf
  unfold PoolInv at h
  rw [hms] at h
  refine ⟨?_, h⟩
  have := h.length_eq
  simpa using this

/-- Witness for claim C1's theorem: capacity 2, with one full
acquire-release cycle followed by an acquire. -/
theorem pool_conservation_witness :
    wfOps (DOTClientPool.init 2) [.acquire, .release 1, .acquire] = true ∧
    ((poolRun (DOTClientPool.init 2) [.acquire, .release 1, .acquire]).pool.length
        + (poolRun (DOTClientPool.init 2) [.acquire, .release 1, .acquire]).out.length = 2 ∧
      ((poolRun (DOTClientPool.init 2) [.acquire, .release 1, .acquire]).pool
        ++ (poolRun (DOTClientPool.init 2) [.acquire, .release 1, .acquire]).out).Perm (List.range 2)) :=
  ⟨by decide, pool_conservation 2 [.acquire, .release 1, .acquire] (by decide)⟩

/-- Model of the `get_client` async context manager (source lines 93-103)
used with a caller body: pop a client from the pool (the busy-poll wait is
modelled by the nonemptiness precondition), run the body - which may return
normally or raise, hence `Except` - and release the client in the `finally`
block, unconditionally. -/
def get_client_scoped {E A : Type} (st : PoolState) (hp : st.pool ≠ [])
    (body : Nat → Except E A) : Except E A × PoolState :=
  let c := st.pool.getLast hp
  let acquired : PoolState := { st with pool := st.pool.dropLast, out := c :: st.out }
  (body c, poolStep acquired (.release c))

/-- Claim C7: for every caller body - including one that raises - the scoped
`get_client` releases the acquired client on exit, restoring the pool state
exactly; the body itself runs on the client popped from the pool, so a
checked-out client is never permanently lost. -/
theorem get_client_releases_on_all_paths {E A : Type} (st : PoolState) (hp : st.pool ≠ [])
    (hcap : st.pool.length ≤ st.maxClients) (body : Nat → Except E A) :
    (get_client_scoped st hp body).2 = st ∧
    (get_client_scoped st hp body).1 = body (st.pool.getLast hp) := by
  have hpos : 0 < st.pool.length := List.length_pos.mpr hp
  refine ⟨?_, rfl⟩
  unfold get_client_scoped
  simp only [poolStep, dequeAppend, List.erase_cons_head]
  rw [if_neg (by rw [List.length_dropLast]; omega), List.dropLast_append_getLast hp]

/-- Witness for claim C7's theorem, with a body that raises `IOError`. -/
theorem get_client_releases_on_all_paths_witness :
    (get_client_scoped (PoolState.mk 2 [0, 1] []) (by decide)
        (fun _ => (Except.error PyErr.ioError : Except PyErr Bytes))).2 = PoolState.mk 2 [0, 1] [] ∧
    (get_client_scoped (PoolState.mk 2 [0, 1] []) (by decide)
        (fun _ => (Except.error PyErr.ioError : Except PyErr Bytes))).1 =
      (fun _ => (Except.error PyErr.ioError : Except PyErr Bytes))
        ((PoolState.mk 2 [0, 1] []).pool.getLast (by decide)) :=
  get_client_releases_on_all_paths (PoolState.mk 2 [0, 1] []) (by decide) (by decide) _

/-- On no code path does `send_message` close the stream: the broken
connection is left as-is (`BrokenButPooled`). -/
theorem send_message_no_close (cl : DOTClient) (msg : Bytes) (pick : String)
    (net : Except PyErr Unit) (dr : Except PyErr Unit) :
    Event.closeEv ∉ (cl.send_message msg pick net dr).events := by
  by_cases hn : cl.needsConnect = true
  · rw [send_message_eq_of_reconnect cl msg pick net dr hn]; simp
  · have hn' : cl.needsConnect = false := by simpa using hn
    cases hw : cl.writer with
    | none => simp [DOTClient.needsConnect, hw] at hn'
    | some w =>
      have hop : w.closing = false := by simpa [DOTClient.needsConnect, hw] using hn'
      by_cases hlen : msg.length < 65536
      · rw [send_message_eq_of_connected cl w msg pick net dr hw hop hlen]; simp
      · rw [send_message_eq_of_overflow cl w msg pick net dr hw hop (by omega)]; simp

/-- Source address of a UDP datagram. -/
abbrev Addr := String × Nat

/-- State of a running `DOTProxyProtocol`: the semaphore's free-permit count
(`asyncio.Semaphore(max_clients)`), the client pool, the clients themselves
(indexed by pool id), and the datagrams sent so far through
`self.transport.sendto`. -/
structure ProxyState where
  sem : Nat
  pool : PoolState
  clients : Nat → DOTClient
  sent : List (Bytes × Addr)

/-- Model of one `DOTProxyProtocol.process` task (source lines 149-162):
acquire a semaphore permit (precondition: one is free; the final state adds
it back, `async with` semantics), acquire a client from the pool
(precondition: pool nonempty), `send_message`, `receive_message`, forward
the response via `sendto` - skipped if send or receive raised - then release
the client and the permit on every path (`async with` finally semantics).
`pick`, `drainOutcome` and `readOutcome` are the environment oracles of the
send and receive calls. -/
def process (ps : ProxyState) (hp : ps.pool.pool ≠ []) (data : Bytes) (addr : Addr)
    (pick : String) (net : Except PyErr Unit) (drainOutcome : Except PyErr Unit)
    (readOutcome : ReadResult) : ProxyState :=
  let c := ps.pool.pool.getLast hp
  let acquired : PoolState :=
    { ps.pool with pool := ps.pool.pool.dropLast, out := c :: ps.pool.out }
  let sr := (ps.clients c).send_message data pick net drainOutcome
  let sent :=
    match sr.outcome with
    | .error _ => ps.sent
    | .ok _ =>
      match receive_message readOutcome with
      | .error _ => ps.sent
      | .ok msg => ps.sent ++ [(msg, addr)]
  { sem := ps.sem - 1 + 1,
    pool := poolStep acquired (.release c),
    clients := fun i => if i = c then sr.client else ps.clients i,
    sent := sent }

/-- Releasing the freshly popped client restores the pool state exactly. -/
theorem pop_then_release_restores (st : PoolState) (hp : st.pool ≠ [])
    (hcap : st.pool.length ≤ st.maxClients) :
    poolStep { st with pool := st.pool.dropLast, out := st.pool.getLast hp :: st.out }
        (.release (st.pool.getLast hp)) = st := by
  have hpos : 0 < st.pool.length := List.length_pos.mpr hp
  simp only [poolStep, dequeAppend, List.erase_cons_head]
  rw [if_neg (by rw [List.length_dropLast]; omega), List.dropLast_append_getLast hp]

/-- Claim C8: when the exchange raises `ConnectError` or `IOError` (from the
send, or from the receive after a successful send), the `process` task sends
no datagram to the source address, makes no retry, and still releases both
the client back to the pool - without closing or discarding it - and the
semaphore permit. -/
theorem process_error_abandons_and_releases (ps : ProxyState) (hp : ps.pool.pool ≠ [])
    (hs : 0 < ps.sem) (hcap : ps.pool.pool.length ≤ ps.pool.maxClients)
    (data : Bytes) (addr : Addr) (pick : String) (net : Except PyErr Unit)
    (drainOutcome : Except PyErr Unit) (readOutcome : ReadResult)
    (hfail :
      ((ps.clients (ps.pool.pool.getLast hp)).send_message data pick net drainOutcome).outcome
          = .error .connectError ∨
      ((ps.clients (ps.pool.pool.getLast hp)).send_message data pick net drainOutcome).outcome
          = .error .ioError ∨
      receive_message readOutcome = .error .ioError) :
    (process ps hp data addr pick net drainOutcome readOutcome).sent = ps.sent ∧
    (process ps hp data addr pick net drainOutcome readOutcome).sem = ps.sem ∧
    (process ps hp data addr pick net drainOutcome readOutcome).pool = ps.pool ∧
    ps.pool.pool.getLast hp ∈ (process ps hp data addr pick net drainOutcome readOutcome).pool.pool ∧
    Event.closeEv ∉
      ((ps.clients (ps.pool.pool.getLast hp)).send_message data pick net drainOutcome).events := by
  have hrestore := pop_then_release_restores ps.pool hp hcap
  refine ⟨?_, ?_, ?_, ?_, send_message_no_close _ _ _ _ _⟩
  · unfold process
    rcases hout : ((ps.clients (ps.pool.pool.getLast hp)).send_message data pick net drainOutcome).outcome
      with e | u
    · simp [hout]
    · rcases hfail with hfail | hfail | hfail
      · rw [hout] at hfail; exact absurd hfail (by simp)
      · rw [hout] at hfail; exact absurd hfail (by simp)
      · simp [hout, hfail]
  · show ps.sem - 1 + 1 = ps.sem
    omega
  · unfold process
    exact hrestore
  · unfold process
    simp only [hrestore]
    exact List.getLast_mem hp

/-- Witness for claim C8's theorem: one client with an established stream,
one permit, and a drain that raises `IOError` during the exchange. -/
theorem process_error_abandons_and_releases_witness :
    (process (ProxyState.mk 1 (PoolState.mk 1 [0] []) (fun _ => DOTClient.mk none none (some { buffer := [], closing := false })) [])
        (by decide) [1] ("127.0.0.1", 5353) "9.9.9.9" (.ok ()) (.error .ioError) (ReadResult.data [])).sent
      = (ProxyState.mk 1 (PoolState.mk 1 [0] []) (fun _ => DOTClient.mk none none (some { buffer := [], closing := false })) []).sent ∧
    (process (ProxyState.mk 1 (PoolState.mk 1 [0] []) (fun _ => DOTClient.mk none none (some { buffer := [], closing := false })) [])
        (by decide) [1] ("127.0.0.1", 5353) "9.9.9.9" (.ok ()) (.error .ioError) (ReadResult.data [])).sem
      = (ProxyState.mk 1 (PoolState.mk 1 [0] []) (fun _ => DOTClient.mk none none (some { buffer := [], closing := false })) []).sem ∧
    (process (ProxyState.mk 1 (PoolState.mk 1 [0] []) (fun _ => DOTClient.mk none none (some { buffer := [], closing := false })) [])
        (by decide) [1] ("127.0.0.1", 5353) "9.9.9.9" (.ok ()) (.error .ioError) (ReadResult.data [])).pool
      = (ProxyState.mk 1 (PoolState.mk 1 [0] []) (fun _ => DOTClient.mk none none (some { buffer := [], closing := false })) []).pool ∧
    (ProxyState.mk 1 (PoolState.mk 1 [0] []) (fun _ => DOTClient.mk none none (some { buffer := [], closing := false })) []).pool.pool.getLast (by decide)
      ∈ (process (ProxyState.mk 1 (PoolState.mk 1 [0] []) (fun _ => DOTClient.mk none none (some { buffer := [], closing := false })) [])
        (by decide) [1] ("127.0.0.1", 5353) "9.9.9.9" (.ok ()) (.error .ioError) (ReadResult.data [])).pool.pool ∧
    Event.closeEv ∉
      (((ProxyState.mk 1 (PoolState.mk 1 [0] []) (fun _ => DOTClient.mk none none (some { buffer := [], closing := false })) []).clients
          ((ProxyState.mk 1 (PoolState.mk 1 [0] []) (fun _ => DOTClient.mk none none (some { buffer := [], closing := false })) []).pool.pool.getLast (by decide))).send_message
        [1] "9.9.9.9" (.ok ()) (.error .ioError)).events :=
  process_error_abandons_and_releases _ (by decide) (by decide) (by decide) _ _ _ _ _ _
    (Or.inr (Or.inl rfl))

/-- Configuration of the per-datagram tasks and the counting semaphore, by
counts: tasks not yet past the semaphore, tasks inside the `async with self.sem`
body (exchanging with the upstream), tasks finished, and free permits. -/
structure SemCfg where
  waiting : Nat
  active : Nat
  finished : Nat
  permits : Nat
deriving DecidableEq, Repr

/-- Interleaving semantics of `asyncio.Semaphore` around the `process` body
(source lines 132 and 154): a waiting task may enter the exchange only by
taking a free permit; a task leaving the exchange returns its permit. -/
inductive SemStep : SemCfg → SemCfg → Prop
  | enter (w a d s : Nat) : SemStep ⟨w + 1, a, d, s + 1⟩ ⟨w, a + 1, d, s⟩
  | leave (w a d s : Nat) : SemStep ⟨w, a + 1, d, s⟩ ⟨w, a, d + 1, s + 1⟩

/-- Reachability from the start configuration: `M` simultaneous datagram
tasks, no task started, `K` free permits (`asyncio.Semaphore(max_clients)`). -/
def SemReach (M K : Nat) : SemCfg → Prop :=
  Relation.ReflTransGen SemStep ⟨M, 0, 0, K⟩

/-- Claim C2: with semaphore capacity `K` and `M` simultaneous datagram
tasks, in every reachable configuration at most `K` exchanges are active
with the upstream; permits and active tasks always sum to `K`, all `M` tasks
are accounted for, and when `K` exchanges are active no permit is free, so
the remaining tasks must wait until a slot frees. -/
theorem semaphore_concurrency_bound (M K : Nat) (cfg : SemCfg) (h : SemReach M K cfg) :
    cfg.active ≤ K ∧ cfg.active + cfg.permits = K ∧
    cfg.waiting + cfg.active + cfg.finished = M ∧
    (cfg.active = K → cfg.permits = 0) := by
  have main : cfg.active + cfg.permits = K ∧ cfg.waiting + cfg.active + cfg.finished = M := by
    induction h with
    | refl => simp
    | tail _ hstep ih =>
      cases hstep with
      | enter w a d s => simp at ih ⊢; omega
      | leave w a d s => simp at ih ⊢; omega
  exact ⟨by omega, main.1, main.2, fun _ => by omega⟩

/-- Witness for claim C2's theorem: two tasks, one permit, after one task
has entered the exchange. -/
theorem semaphore_concurrency_bound_witness :
    (SemCfg.mk 1 1 0 0).active ≤ 1 ∧
    (SemCfg.mk 1 1 0 0).active + (SemCfg.mk 1 1 0 0).permits = 1 ∧
    (SemCfg.mk 1 1 0 0).waiting + (SemCfg.mk 1 1 0 0).active + (SemCfg.mk 1 1 0 0).finished = 2 ∧
    ((SemCfg.mk 1 1 0 0).active = 1 → (SemCfg.mk 1 1 0 0).permits = 0) :=
  semaphore_concurrency_bound 2 1 (SemCfg.mk 1 1 0 0)
    (Relation.ReflTransGen.single (SemStep.enter 1 0 0 0))

end DotProxy
